import Mathlib

/-!
Verification of the loan-ledger logic of the kailash-koshti repository.

The three loan controllers (daily/weekly/monthly), the loan-number
generator and the deletion handlers are shallowly embedded below.
Conventions used by the embedding:

* Monetary quantities and percentages are `Int` (the code works in
  integer rupee units; subtractions may go negative).
* Calendar dates and timestamps are abstracted as `Int` day numbers; a
  `Date` value that javascript would normalise with `setHours(0,0,0,0)`
  is already a day number here, and `new Date()` ("now") is an explicit
  parameter of each operation.  Request fields that may be absent or
  falsy are `Option Int` with `none` standing for absent/falsy/unparsable.
* Javascript truthiness of a number is `≠ 0`, of a string `≠ ""`.
* A thrown `ApiError` is an `Except.error`; persistence happens only on
  `Except.ok`, which the `persistLoan`/`persistColl` helpers make explicit.
* The error constructors follow the spec's taxonomy (§7): the source
  throws `ApiError(400, msg)` both for validation failures and for the
  already-completed check; the latter is mapped to `invalidStateError`.
-/

namespace KailashKoshti

/-- Status of a single installment.  The daily schema admits only
`paid`/`pending`; weekly and monthly additionally admit `missed`. -/
inductive IStatus where
  | paid
  | pending
  | missed
deriving DecidableEq, Repr

/-- Status of a loan document: `active` or `completed`. -/
inductive LStatus where
  | active
  | completed
deriving DecidableEq, Repr

/-- One embedded installment record, as stored inside a loan document. -/
structure Installment where
  period : Int
  date : Int
  amount : Int
  status : IStatus
  paidOn : Option Int
deriving DecidableEq, Repr

/-- Error taxonomy of §7; each constructor carries the message thrown by
the source's `ApiError`. -/
inductive ApiErr where
  | validationError (msg : String)
  | notFoundError (msg : String)
  | invalidStateError (msg : String)
deriving DecidableEq, Repr

/-- Daily loan document (`daily.model.js` + `createDailyLoan`). -/
structure DailyLoan where
  loanNumber : Int
  name : String
  phoneNumber : Option String
  loanAmount : Int
  amountGiven : Int
  issuingDate : Int
  expectedProfit : Int
  totalProfit : Int
  profitPercentage : Int
  numberOfDays : Int
  amountPerDay : Int
  collectedAmount : Int
  remainingAmount : Int
  status : LStatus
  installments : List Installment
deriving DecidableEq, Repr

/-- Monthly loan document (`monthly` schema in the model file). -/
structure MonthlyLoan where
  loanNumber : Int
  name : String
  phoneNumber : Option String
  loanAmount : Int
  amountGiven : Int
  issuingDate : Int
  interestAmount : Int
  interestPercentage : Int
  profitAmount : Int
  collectedAmount : Int
  remainingAmount : Int
  status : LStatus
  installments : List Installment
deriving DecidableEq, Repr

/-- Weekly loan document.  `weekly.model.js` is not part of the sources;
`createWeeklyLoan` never computes or passes a `loanNumber`, and the spec's
open questions record that weekly loans are never assigned one, so the
field is `Option Int` and creation leaves it `none`. -/
structure WeeklyLoan where
  loanNumber : Option Int
  name : String
  phoneNumber : Option String
  loanAmount : Int
  amountGiven : Int
  issuingDate : Int
  interestAmount : Int
  interestPercentage : Int
  profitAmount : Int
  collectedAmount : Int
  remainingAmount : Int
  status : LStatus
  installments : List Installment
deriving DecidableEq, Repr

/-- Persistence of a single-document update: a thrown error leaves the
previously stored document authoritative (§7). -/
def persistLoan {α : Type} (old : α) (r : Except ApiErr α) : α :=
  match r with
  | .ok l => l
  | .error _ => old

/-- Persistence of a delete: on error the collection is untouched. -/
def persistColl {β γ : Type} (old : γ) (r : Except ApiErr (β × γ)) : γ :=
  match r with
  | .ok p => p.2
  | .error _ => old

/-- Run a per-entry validator over a request list; the first thrown
error aborts the whole request (`forEach` with `throw` in the source). -/
def validateList {α : Type} (f : α → Except ApiErr Unit) : List α → Except ApiErr Unit
  | [] => .ok ()
  | x :: xs =>
    match f x with
    | .error e => .error e
    | .ok _ => validateList f xs

/-- `collectedAmount` accumulation: sum of `amount` over installments
whose status is `paid` (the `forEach` accumulation in all three
controllers). -/
def sumPaid (l : List Installment) : Int :=
  l.foldl (fun acc i => if i.status = .paid then acc + i.amount else acc) 0

/-! ## Daily installment reconciliation (`updateDailyInstallment`) -/

/-- One entry of the `installments` array of a daily PATCH body.
`status` is the raw string; `""` models an absent/falsy field. -/
structure DailyInstUpdate where
  period : Int
  status : String
  paidOn : Option Int
deriving DecidableEq, Repr

/-- Per-entry validation of `updateDailyInstallment`: `period` and
`status` must be truthy and the status must be `paid` or `pending`. -/
def validateDailyEntry (e : DailyInstUpdate) : Except ApiErr Unit :=
  if e.period = 0 ∨ e.status = "" then
    .error (.validationError "Each installment must have period and status")
  else if e.status ≠ "paid" ∧ e.status ≠ "pending" then
    .error (.validationError "Invalid installment status. Must be paid or pending")
  else
    .ok ()

/-- The `installmentUpdates` map: keyed by period, later entries
overwrite earlier ones (`Map.set`), so lookup finds the last match. -/
def lookupDailyUpdate (entries : List DailyInstUpdate) (p : Int) : Option DailyInstUpdate :=
  entries.reverse.find? (fun e => e.period = p)

/-- Apply the update map to one stored installment: an entry with the
same period overwrites the status; `paid` sets `paidOn` to the supplied
timestamp or to now, anything else clears it; a period without an entry
is left untouched (daily never appends installments). -/
def applyDailyUpdate (now : Int) (entries : List DailyInstUpdate) (inst : Installment) : Installment :=
  match lookupDailyUpdate entries inst.period with
  | none => inst
  | some u =>
    if u.status = "paid" then
      { inst with status := .paid,
                  paidOn := some (match u.paidOn with | some t => t | none => now) }
    else
      { inst with status := .pending, paidOn := none }

/-- `updateDailyInstallment` (daily.controller.js): validate every
entry, overwrite matching stored installments, then recompute
`collectedAmount`, `remainingAmount`, `totalProfit` and `status` from
the resulting list.  An empty entries array is allowed. -/
def updateDailyInstallment (now : Int) (loan : DailyLoan)
    (entries : List DailyInstUpdate) : Except ApiErr DailyLoan :=
  match validateList validateDailyEntry entries with
  | .error e => .error e
  | .ok _ =>
    let updated := loan.installments.map (applyDailyUpdate now entries)
    let collected := sumPaid updated
    let remaining := loan.loanAmount - collected
    .ok { loan with
          installments := updated,
          collectedAmount := collected,
          remainingAmount := remaining,
          totalProfit := max 0 (collected - loan.amountGiven),
          status := if remaining ≤ 0 then .completed else .active }

theorem updateDaily_ok_shape (now : Int) (loan : DailyLoan)
    (entries : List DailyInstUpdate) (l' : DailyLoan)
    (h : updateDailyInstallment now loan entries = .ok l') :
    l' = { loan with
           installments := loan.installments.map (applyDailyUpdate now entries),
           collectedAmount := sumPaid (loan.installments.map (applyDailyUpdate now entries)),
           remainingAmount := loan.loanAmount -
             sumPaid (loan.installments.map (applyDailyUpdate now entries)),
           totalProfit := max 0
             (sumPaid (loan.installments.map (applyDailyUpdate now entries)) - loan.amountGiven),
           status := if loan.loanAmount -
               sumPaid (loan.installments.map (applyDailyUpdate now entries)) ≤ 0
             then .completed else .active } := by
  unfold updateDailyInstallment at h
  cases hv : validateList validateDailyEntry entries with
  | error e => rw [hv] at h; exact absurd h (by simp)
  | ok u => rw [hv] at h; simp only [Except.ok.injEq] at h; exact h.symm

/-! ## Weekly/Monthly installment reconciliation -/

/-- One entry of the `installments` array of a weekly or monthly PATCH
body: `date` and `amount` are required in addition to `period`; `status`
is optional (raw string, `""` = absent/falsy). -/
structure PlanInstUpdate where
  period : Int
  date : Option Int
  amount : Int
  status : String
  paidOn : Option Int
deriving DecidableEq, Repr

/-- Per-entry validation shared by `updateWeeklyInstallment` and
`updateMonthlyInstallment`: `period`, `date`, `amount` must be truthy,
the status (if supplied) must be `paid`, `missed` or `pending`, and the
amount must be positive. -/
def validatePlanEntry (e : PlanInstUpdate) : Except ApiErr Unit :=
  if e.period = 0 ∨ e.date = none ∨ e.amount = 0 then
    .error (.validationError "Each installment must have period, date, and amount")
  else if e.status ≠ "" ∧ e.status ≠ "paid" ∧ e.status ≠ "missed" ∧ e.status ≠ "pending" then
    .error (.validationError "Invalid installment status. Must be paid, missed, or pending")
  else if e.amount ≤ 0 then
    .error (.validationError "Installment amount must be positive")
  else
    .ok ()

/-- Parse a validated non-empty status string. -/
def parseStatus (s : String) : IStatus :=
  if s = "paid" then .paid else if s = "missed" then .missed else .pending

/-- The `existingInstallmentsMap` of the stored loan: keyed by period,
later stored entries overwrite earlier ones (`Map.set`). -/
def findStored (stored : List Installment) (p : Int) : Option Installment :=
  stored.reverse.find? (fun i => i.period = p)

/-- Build the resulting installment for one request entry (weekly and
monthly use identical code): an existing period keeps its stored status
when the entry omits `status`, a new period defaults to `pending`;
`paidOn` is computed from the RAW request status: supplied `paid` sets
it to the supplied timestamp or now, anything else (including an
omitted status) clears it to `null`. -/
def buildPlanInstallment (now : Int) (stored : List Installment)
    (e : PlanInstUpdate) : Installment :=
  { period := e.period,
    date := e.date.getD 0,
    amount := e.amount,
    status :=
      if e.status ≠ "" then parseStatus e.status
      else match findStored stored e.period with
        | some old => old.status
        | none => .pending,
    paidOn :=
      if e.status = "paid" then
        some (match e.paidOn with | some t => t | none => now)
      else none }

/-- Number of request entries whose period is absent from the stored
list (`newInstallmentsCount`; the lookup map is not extended while
iterating, so every entry is checked against the original stored list). -/
def countNewEntries (stored : List Installment) (entries : List PlanInstUpdate) : Nat :=
  entries.countP (fun e => (findStored stored e.period).isNone)

/-- `updateMonthlyInstallment` (monthly.controller.js): the resulting
installment list is exactly the request entries (stored periods not
resent are dropped); `profitAmount` restarts from `interestAmount` plus
the paid installments of the resulting list; `collectedAmount` restarts
from the paid installments and, when the stored `collectedAmount` had
reached `loanAmount` (the marked-as-paid proxy), adds `loanAmount` on
top; `remainingAmount` is carried over unchanged; the status is
`completed` exactly when the proxy held and every resulting installment
is paid. -/
def updateMonthlyInstallment (now : Int) (loan : MonthlyLoan)
    (entries : List PlanInstUpdate) : Except ApiErr MonthlyLoan :=
  if entries.isEmpty then
    .error (.validationError "Installments array is required and must contain at least one installment")
  else match validateList validatePlanEntry entries with
  | .error e => .error e
  | .ok _ =>
    let updated := entries.map (buildPlanInstallment now loan.installments)
    let instCollected := sumPaid updated
    let marked : Bool := decide (loan.collectedAmount ≥ loan.loanAmount)
    let allPaid : Bool := updated.all (fun i => i.status = .paid)
    .ok { loan with
          installments := updated,
          profitAmount := loan.interestAmount + sumPaid updated,
          collectedAmount := if marked then instCollected + loan.loanAmount else instCollected,
          remainingAmount := loan.remainingAmount,
          status := if marked ∧ allPaid then .completed else .active }

/-- `updateWeeklyInstallment` (weekly.controller.js): same per-entry
processing and profit rule as monthly, but `collectedAmount` and
`remainingAmount` are carried over unchanged; the status is forced to
`active` when any new period was appended, otherwise it is `completed`
exactly when the stored `collectedAmount` equals `loanAmount` and every
resulting installment is paid. -/
def updateWeeklyInstallment (now : Int) (loan : WeeklyLoan)
    (entries : List PlanInstUpdate) : Except ApiErr WeeklyLoan :=
  if entries.isEmpty then
    .error (.validationError "Installments array is required and must contain at least one installment")
  else match validateList validatePlanEntry entries with
  | .error e => .error e
  | .ok _ =>
    let updated := entries.map (buildPlanInstallment now loan.installments)
    let marked : Bool := decide (loan.collectedAmount = loan.loanAmount)
    let allPaid : Bool := updated.all (fun i => i.status = .paid)
    .ok { loan with
          installments := updated,
          profitAmount := loan.interestAmount + sumPaid updated,
          collectedAmount := loan.collectedAmount,
          remainingAmount := loan.remainingAmount,
          status :=
            if countNewEntries loan.installments entries > 0 then .active
            else if marked ∧ allPaid then .completed else .active }

/-! ## Mark-loan-as-paid (weekly/monthly) -/

/-- `markMonthlyLoanAsPaid`: rejected outright when the loan is already
`completed`; otherwise adds `loanAmount` on top of the stored
`collectedAmount`, zeroes `remainingAmount`, and completes the loan only
when every installment is already paid. -/
def markMonthlyLoanAsPaid (loan : MonthlyLoan) : Except ApiErr MonthlyLoan :=
  if loan.status = .completed then
    .error (.invalidStateError "Loan is already marked as completed")
  else
    .ok { loan with
          collectedAmount := loan.collectedAmount + loan.loanAmount,
          remainingAmount := 0,
          status := if loan.installments.all (fun i => i.status = .paid)
            then .completed else .active }

/-- `markWeeklyLoanAsPaid`: rejected outright when the loan is already
`completed`; otherwise sets `collectedAmount` to `loanAmount` (direct
set, not additive), zeroes `remainingAmount`, and completes the loan
only when every installment is already paid (the source's
`isMarkedAsPaid` comparison is identically true). -/
def markWeeklyLoanAsPaid (loan : WeeklyLoan) : Except ApiErr WeeklyLoan :=
  if loan.status = .completed then
    .error (.invalidStateError "Loan is already marked as completed")
  else
    .ok { loan with
          collectedAmount := loan.loanAmount,
          remainingAmount := 0,
          status := if loan.installments.all (fun i => i.status = .paid)
            then .completed else .active }

/-! ## Deletion -/

/-- `deleteDailyLoan`: id must be 24 characters; `findByIdAndDelete`
removes the matching document or reports that none exists. -/
def deleteDailyLoan (coll : List (String × DailyLoan)) (oid : String) :
    Except ApiErr (DailyLoan × List (String × DailyLoan)) :=
  if oid.length ≠ 24 then .error (.validationError "Invalid loan ID format")
  else match coll.find? (fun p => p.1 = oid) with
    | none => .error (.notFoundError "Daily loan not found")
    | some entry => .ok (entry.2, coll.filter (fun p => p.1 ≠ oid))

/-- `deleteWeeklyLoan`, same shape as the daily delete. -/
def deleteWeeklyLoan (coll : List (String × WeeklyLoan)) (oid : String) :
    Except ApiErr (WeeklyLoan × List (String × WeeklyLoan)) :=
  if oid.length ≠ 24 then .error (.validationError "Invalid loan ID format")
  else match coll.find? (fun p => p.1 = oid) with
    | none => .error (.notFoundError "Weekly loan not found")
    | some entry => .ok (entry.2, coll.filter (fun p => p.1 ≠ oid))

/-- `deleteMonthlyLoan`, same shape as the daily delete. -/
def deleteMonthlyLoan (coll : List (String × MonthlyLoan)) (oid : String) :
    Except ApiErr (MonthlyLoan × List (String × MonthlyLoan)) :=
  if oid.length ≠ 24 then .error (.validationError "Invalid loan ID format")
  else match coll.find? (fun p => p.1 = oid) with
    | none => .error (.notFoundError "Monthly loan not found")
    | some entry => .ok (entry.2, coll.filter (fun p => p.1 ≠ oid))

/-! ## Loan creation and the loan-number generator -/

/-- Maximum `loanNumber` in a collection: the document returned by
`findOne` sorted by `loanNumber` descending, `none` on an empty
collection. -/
def maxLoanNumber : List Int → Option Int
  | [] => none
  | n :: rest =>
    match maxLoanNumber rest with
    | none => some n
    | some m => some (max n m)

/-- `getNextLoanNumber` (loanNumberGenerator.js): one more than the
highest existing loan number of the plan, or 1 when none exist. -/
def getNextLoanNumber (nums : List Int) : Int :=
  match maxLoanNumber nums with
  | none => 1
  | some m => m + 1

/-- Body of a POST /daily request.  `issuingDate` is the pre-parsed
date (`none` = absent/unparsable). -/
structure DailyCreateReq where
  customerName : String
  phoneNumber : Option String
  amountGiven : Int
  expectedProfit : Int
  profitPercentage : Int
  totalLoanAmount : Int
  numberOfDays : Int
  amountPerDay : Int
  issuingDate : Option Int
deriving DecidableEq, Repr

/-- The pre-generated daily schedule: installment `i` (1-based) is due
`i` days after the issuing date, costs `amountPerDay`, and starts
`pending` with no `paidOn`.  A non-positive `numberOfDays` makes the
javascript `for` loop body run zero times. -/
def genDailyInstallments (issuing : Int) (n : Int) (amt : Int) : List Installment :=
  (List.range n.toNat).map (fun (j : Nat) =>
    { period := (j : Int) + 1,
      date := issuing + ((j : Int) + 1),
      amount := amt,
      status := .pending,
      paidOn := none })

/-- `createDailyLoan` (daily.controller.js), given the loan number the
generator produced.  Required fields are checked for javascript
truthiness only (so 0 is rejected but negative values pass); the phone
number, when present and not blank, must contain exactly 10 digits. -/
def createDailyLoan (loanNumber : Int) (req : DailyCreateReq) : Except ApiErr DailyLoan :=
  if req.customerName = "" ∨ req.amountGiven = 0 ∨ req.expectedProfit = 0 ∨
     req.profitPercentage = 0 ∨ req.totalLoanAmount = 0 ∨ req.numberOfDays = 0 ∨
     req.amountPerDay = 0 ∨ req.issuingDate = none then
    .error (.validationError "All fields are required")
  else if (match req.phoneNumber with
           | some p => p.trim ≠ "" && (p.toList.filter Char.isDigit).length ≠ 10
           | none => false : Bool) then
    .error (.validationError "Phone number must be exactly 10 digits")
  else
    let issuing := req.issuingDate.getD 0
    .ok { loanNumber := loanNumber,
          name := req.customerName,
          phoneNumber := req.phoneNumber,
          loanAmount := req.totalLoanAmount,
          amountGiven := req.amountGiven,
          issuingDate := issuing,
          expectedProfit := req.expectedProfit,
          totalProfit := 0,
          profitPercentage := req.profitPercentage,
          numberOfDays := req.numberOfDays,
          amountPerDay := req.amountPerDay,
          collectedAmount := 0,
          remainingAmount := req.totalLoanAmount,
          status := .active,
          installments := genDailyInstallments issuing req.numberOfDays req.amountPerDay }

/-- Body of a POST /weekly or /monthly request. -/
structure PlanCreateReq where
  customerName : String
  phoneNumber : Option String
  amountGiven : Int
  totalLoanAmount : Int
  interestAmount : Int
  interestPercentage : Int
  issuingDate : Option Int
deriving DecidableEq, Repr

/-- Shared weekly/monthly creation validation: truthy required fields,
positivity of the amounts, non-negativity of the interest fields, and a
phone number of at least 10 characters when present. -/
def validatePlanCreate (req : PlanCreateReq) : Except ApiErr Unit :=
  if req.customerName = "" ∨ req.amountGiven = 0 ∨ req.totalLoanAmount = 0 ∨
     req.interestAmount = 0 ∨ req.interestPercentage = 0 ∨ req.issuingDate = none then
    .error (.validationError "All fields are required")
  else if req.amountGiven ≤ 0 ∨ req.totalLoanAmount ≤ 0 ∨
          req.interestAmount < 0 ∨ req.interestPercentage < 0 then
    .error (.validationError "Amount given and total loan amount must be positive, interest fields cannot be negative")
  else if (match req.phoneNumber with
           | some p => p ≠ "" && p.length < 10
           | none => false : Bool) then
    .error (.validationError "Phone number must be at least 10 digits")
  else
    .ok ()

/-- `createMonthlyLoan` (monthly.controller.js), given the generated
loan number. -/
def createMonthlyLoan (loanNumber : Int) (req : PlanCreateReq) : Except ApiErr MonthlyLoan :=
  match validatePlanCreate req with
  | .error e => .error e
  | .ok _ =>
    .ok { loanNumber := loanNumber,
          name := req.customerName,
          phoneNumber := (match req.phoneNumber with
                          | some p => if p = "" then none else some p
                          | none => none),
          loanAmount := req.totalLoanAmount,
          amountGiven := req.amountGiven,
          issuingDate := req.issuingDate.getD 0,
          interestAmount := req.interestAmount,
          interestPercentage := req.interestPercentage,
          profitAmount := req.interestAmount,
          collectedAmount := 0,
          remainingAmount := req.totalLoanAmount,
          status := .active,
          installments := [] }

/-- `createWeeklyLoan` (weekly.controller.js): identical validation and
derivation, but no loan number is ever generated or stored. -/
def createWeeklyLoan (req : PlanCreateReq) : Except ApiErr WeeklyLoan :=
  match validatePlanCreate req with
  | .error e => .error e
  | .ok _ =>
    .ok { loanNumber := none,
          name := req.customerName,
          phoneNumber := (match req.phoneNumber with
                          | some p => if p = "" then none else some p
                          | none => none),
          loanAmount := req.totalLoanAmount,
          amountGiven := req.amountGiven,
          issuingDate := req.issuingDate.getD 0,
          interestAmount := req.interestAmount,
          interestPercentage := req.interestPercentage,
          profitAmount := req.interestAmount,
          collectedAmount := 0,
          remainingAmount := req.totalLoanAmount,
          status := .active,
          installments := [] }

/-- Daily creation against a collection: the controller first asks the
generator for the next number of the plan, then persists on success. -/
def createDailyLoanIn (coll : List DailyLoan) (req : DailyCreateReq) :
    Except ApiErr (List DailyLoan) :=
  match createDailyLoan (getNextLoanNumber (coll.map (fun l => l.loanNumber))) req with
  | .error e => .error e
  | .ok l => .ok (coll ++ [l])

/-- Monthly creation against a collection. -/
def createMonthlyLoanIn (coll : List MonthlyLoan) (req : PlanCreateReq) :
    Except ApiErr (List MonthlyLoan) :=
  match createMonthlyLoan (getNextLoanNumber (coll.map (fun l => l.loanNumber))) req with
  | .error e => .error e
  | .ok l => .ok (coll ++ [l])

/-- Sequential (non-concurrent) daily creations, aborting on the first
rejected request. -/
def runDailyCreates : List DailyLoan → List DailyCreateReq → Except ApiErr (List DailyLoan)
  | coll, [] => .ok coll
  | coll, r :: rs =>
    match createDailyLoanIn coll r with
    | .error e => .error e
    | .ok c => runDailyCreates c rs

/-- Sequential (non-concurrent) monthly creations. -/
def runMonthlyCreates : List MonthlyLoan → List PlanCreateReq → Except ApiErr (List MonthlyLoan)
  | coll, [] => .ok coll
  | coll, r :: rs =>
    match createMonthlyLoanIn coll r with
    | .error e => .error e
    | .ok c => runMonthlyCreates c rs

/-- The loan numbers 1..k, the expected outcome of k sequential
creations starting from an empty collection. -/
def oneTo (k : Nat) : List Int :=
  (List.range k).map (fun j => (j : Int) + 1)

/-! ## Shape lemmas: the unique successful outcome of each operation -/

theorem updateMonthly_ok_shape (now : Int) (loan : MonthlyLoan)
    (entries : List PlanInstUpdate) (l' : MonthlyLoan)
    (h : updateMonthlyInstallment now loan entries = .ok l') :
    l' = { loan with
           installments := entries.map (buildPlanInstallment now loan.installments),
           profitAmount := loan.interestAmount +
             sumPaid (entries.map (buildPlanInstallment now loan.installments)),
           collectedAmount :=
             if decide (loan.collectedAmount ≥ loan.loanAmount) then
               sumPaid (entries.map (buildPlanInstallment now loan.installments)) + loan.loanAmount
             else sumPaid (entries.map (buildPlanInstallment now loan.installments)),
           remainingAmount := loan.remainingAmount,
           status :=
             if decide (loan.collectedAmount ≥ loan.loanAmount) ∧
                (entries.map (buildPlanInstallment now loan.installments)).all
                  (fun i => i.status = .paid) then .completed else .active } := by
  unfold updateMonthlyInstallment at h
  by_cases he : entries.isEmpty
  · rw [if_pos he] at h; exact absurd h (by simp)
  · rw [if_neg he] at h
    cases hv : validateList validatePlanEntry entries with
    | error e => rw [hv] at h; exact absurd h (by simp)
    | ok u => rw [hv] at h; simp only [Except.ok.injEq] at h; exact h.symm

theorem updateWeekly_ok_shape (now : Int) (loan : WeeklyLoan)
    (entries : List PlanInstUpdate) (l' : WeeklyLoan)
    (h : updateWeeklyInstallment now loan entries = .ok l') :
    l' = { loan with
           installments := entries.map (buildPlanInstallment now loan.installments),
           profitAmount := loan.interestAmount +
             sumPaid (entries.map (buildPlanInstallment now loan.installments)),
           collectedAmount := loan.collectedAmount,
           remainingAmount := loan.remainingAmount,
           status :=
             if countNewEntries loan.installments entries > 0 then .active
             else if decide (loan.collectedAmount = loan.loanAmount) ∧
                     (entries.map (buildPlanInstallment now loan.installments)).all
                       (fun i => i.status = .paid) then .completed else .active } := by
  unfold updateWeeklyInstallment at h
  by_cases he : entries.isEmpty
  · rw [if_pos he] at h; exact absurd h (by simp)
  · rw [if_neg he] at h
    cases hv : validateList validatePlanEntry entries with
    | error e => rw [hv] at h; exact absurd h (by simp)
    | ok u => rw [hv] at h; simp only [Except.ok.injEq] at h; exact h.symm

/-! ## Claim theorems -/

/-- C1: for every daily loan and every valid reconciliation request,
`updateDailyInstallment` persists a state whose `collectedAmount` is the
sum of `amount` over `paid` installments of the resulting list, whose
`remainingAmount` is `loanAmount` minus that sum, whose `totalProfit` is
`max 0 (collectedAmount - amountGiven)`, and whose status is `completed`
exactly when `remainingAmount ≤ 0` and `active` otherwise. -/
theorem daily_reconcile_aggregates (now : Int) (loan : DailyLoan)
    (entries : List DailyInstUpdate) (l' : DailyLoan)
    (h : updateDailyInstallment now loan entries = .ok l') :
    l'.collectedAmount = sumPaid l'.installments ∧
    l'.remainingAmount = l'.loanAmount - l'.collectedAmount ∧
    l'.totalProfit = max 0 (l'.collectedAmount - l'.amountGiven) ∧
    (l'.status = .completed ↔ l'.remainingAmount ≤ 0) ∧
    (l'.status = .active ↔ ¬ l'.remainingAmount ≤ 0) := by
  have hs := updateDaily_ok_shape now loan entries l' h
  subst hs
  refine ⟨rfl, rfl, rfl, ?_, ?_⟩ <;>
    by_cases hr : loan.loanAmount -
        sumPaid (loan.installments.map (applyDailyUpdate now entries)) ≤ 0 <;>
      simp [hr]

/-- Daily reconciliation fixture: loan with one pending and one paid
installment, request marking period 1 paid. -/
def dLoanW : DailyLoan :=
  { loanNumber := 1, name := "A", phoneNumber := none, loanAmount := 1000,
    amountGiven := 900, issuingDate := 0, expectedProfit := 100, totalProfit := 0,
    profitPercentage := 10, numberOfDays := 10, amountPerDay := 100,
    collectedAmount := 100, remainingAmount := 900, status := .active,
    installments := [⟨1, 1, 100, .pending, none⟩, ⟨2, 2, 100, .paid, some 2⟩] }

def dEntsW : List DailyInstUpdate := [⟨1, "paid", some 3⟩]

def dResW : DailyLoan := persistLoan dLoanW (updateDailyInstallment 5 dLoanW dEntsW)

/-- C1 witness: the daily aggregate equations hold on a concrete
reconciliation. -/
theorem daily_reconcile_aggregates_witness :
    dResW.collectedAmount = sumPaid dResW.installments ∧
    dResW.remainingAmount = dResW.loanAmount - dResW.collectedAmount ∧
    dResW.totalProfit = max 0 (dResW.collectedAmount - dResW.amountGiven) ∧
    (dResW.status = .completed ↔ dResW.remainingAmount ≤ 0) ∧
    (dResW.status = .active ↔ ¬ dResW.remainingAmount ≤ 0) :=
  daily_reconcile_aggregates 5 dLoanW dEntsW dResW rfl

/-- C2: for every monthly loan and every valid reconciliation request,
`updateMonthlyInstallment` persists `profitAmount` equal to the loan's
`interestAmount` plus the sum of paid installment amounts of the
resulting list, and carries `remainingAmount` over unchanged. -/
theorem monthly_reconcile_profit_remaining (now : Int) (loan : MonthlyLoan)
    (entries : List PlanInstUpdate) (l' : MonthlyLoan)
    (h : updateMonthlyInstallment now loan entries = .ok l') :
    l'.profitAmount = loan.interestAmount + sumPaid l'.installments ∧
    l'.remainingAmount = loan.remainingAmount := by
  have hs := updateMonthly_ok_shape now loan entries l' h
  subst hs
  exact ⟨rfl, rfl⟩

/-- Monthly reconciliation fixture matching the spec's example:
`loanAmount = 12000`, `interestAmount = 1000`, one paid installment of
1000 appended. -/
def mLoanW : MonthlyLoan :=
  { loanNumber := 1, name := "B", phoneNumber := none, loanAmount := 12000,
    amountGiven := 11000, issuingDate := 0, interestAmount := 1000,
    interestPercentage := 10, profitAmount := 1000, collectedAmount := 0,
    remainingAmount := 12000, status := .active, installments := [] }

def mEntsW : List PlanInstUpdate := [⟨1, some 30, 1000, "paid", some 31⟩]

def mResW : MonthlyLoan := persistLoan mLoanW (updateMonthlyInstallment 2 mLoanW mEntsW)

/-- C2 witness: the monthly profit/remaining equations hold on the
spec's example scenario. -/
theorem monthly_reconcile_profit_remaining_witness :
    mResW.profitAmount = mLoanW.interestAmount + sumPaid mResW.installments ∧
    mResW.remainingAmount = mLoanW.remainingAmount :=
  monthly_reconcile_profit_remaining 2 mLoanW mEntsW mResW rfl

/-- C3: for every weekly loan and every valid reconciliation request,
`updateWeeklyInstallment` carries `collectedAmount` and
`remainingAmount` over unchanged; the resulting status is `active`
whenever some request entry introduces a period absent from the stored
list, and otherwise is `completed` exactly when the stored
`collectedAmount` equals `loanAmount` and every resulting installment is
paid. -/
theorem weekly_reconcile_frame_status (now : Int) (loan : WeeklyLoan)
    (entries : List PlanInstUpdate) (l' : WeeklyLoan)
    (h : updateWeeklyInstallment now loan entries = .ok l') :
    l'.collectedAmount = loan.collectedAmount ∧
    l'.remainingAmount = loan.remainingAmount ∧
    ((∃ e ∈ entries, findStored loan.installments e.period = none) →
      l'.status = .active) ∧
    ((∀ e ∈ entries, (findStored loan.installments e.period).isSome) →
      (l'.status = .completed ↔
        loan.collectedAmount = loan.loanAmount ∧
          ∀ i ∈ l'.installments, i.status = .paid)) := by
  have hs := updateWeekly_ok_shape now loan entries l' h
  subst hs
  refine ⟨rfl, rfl, ?_, ?_⟩
  · intro ⟨e, he, hnone⟩
    have hpos : 0 < countNewEntries loan.installments entries := by
      rw [countNewEntries, List.countP_pos_iff]
      exact ⟨e, he, by simp [hnone]⟩
    simp [hpos]
  · intro hall
    have hzero : countNewEntries loan.installments entries = 0 := by
      rw [countNewEntries, List.countP_eq_zero]
      intro e he
      have hsome := hall e he
      rw [Option.isSome_iff_ne_none] at hsome
      simp only [Option.isNone_iff_eq_none]
      exact hsome
    by_cases hm : loan.collectedAmount = loan.loanAmount
    · by_cases hp : ∀ i ∈ entries.map (buildPlanInstallment now loan.installments),
          i.status = .paid
      · simp [hzero, hm, hp, List.all_eq_true]
      · have hpf : ¬ ((entries.map (buildPlanInstallment now loan.installments)).all
            (fun i => i.status = .paid) = true) := by
          simpa [List.all_eq_true] using hp
        push_neg at hp
        obtain ⟨i, hi, hip⟩ := hp
        rw [List.mem_map] at hi
        obtain ⟨x, hx, rfl⟩ := hi
        simp [hzero, hm, hpf]
        exact ⟨x, hx, hip⟩
    · simp [hzero, hm]

/-- Weekly reconciliation fixture: one stored pending installment,
request marking it paid on a loan not yet marked fully collected. -/
def wLoanW : WeeklyLoan :=
  { loanNumber := none, name := "C", phoneNumber := none, loanAmount := 5000,
    amountGiven := 4500, issuingDate := 0, interestAmount := 500,
    interestPercentage := 10, profitAmount := 500, collectedAmount := 0,
    remainingAmount := 5000, status := .active,
    installments := [⟨1, 7, 500, .pending, none⟩] }

def wEntsW : List PlanInstUpdate := [⟨1, some 7, 500, "paid", some 8⟩]

def wResW : WeeklyLoan := persistLoan wLoanW (updateWeeklyInstallment 9 wLoanW wEntsW)

/-- C3 witness: the weekly frame and status characterisation hold on a
concrete reconciliation. -/
theorem weekly_reconcile_frame_status_witness :
    wResW.collectedAmount = wLoanW.collectedAmount ∧
    wResW.remainingAmount = wLoanW.remainingAmount ∧
    ((∃ e ∈ wEntsW, findStored wLoanW.installments e.period = none) →
      wResW.status = .active) ∧
    ((∀ e ∈ wEntsW, (findStored wLoanW.installments e.period).isSome) →
      (wResW.status = .completed ↔
        wLoanW.collectedAmount = wLoanW.loanAmount ∧
          ∀ i ∈ wResW.installments, i.status = .paid)) :=
  weekly_reconcile_frame_status 9 wLoanW wEntsW wResW rfl

/-- `parseStatus` yields `paid` exactly on the string `paid`. -/
theorem parseStatus_eq_paid (s : String) : parseStatus s = .paid ↔ s = "paid" := by
  unfold parseStatus
  by_cases h1 : s = "paid" <;> by_cases h2 : s = "missed" <;> simp [h1, h2]

/-- C4 counterexample fixture: a monthly loan holding one paid
installment with a non-null `paidOn` (so the stored invariant holds). -/
def mLoanC4 : MonthlyLoan :=
  { loanNumber := 1, name := "D", phoneNumber := none, loanAmount := 1000,
    amountGiven := 900, issuingDate := 0, interestAmount := 100,
    interestPercentage := 10, profitAmount := 200, collectedAmount := 100,
    remainingAmount := 1000, status := .active,
    installments := [⟨1, 5, 100, .paid, some 3⟩] }

/-- C4 counterexample fixture: a valid request entry for the stored
period that omits `status` (allowed: only period, date and amount are
required). -/
def entC4 : PlanInstUpdate := ⟨1, some 5, 100, "", none⟩

/-- Status/paidOn projection of a persisted monthly update. -/
def monthlyInstMarks (r : Except ApiErr MonthlyLoan) : Option (List (IStatus × Option Int)) :=
  match r with
  | .ok l => some (l.installments.map (fun i => (i.status, i.paidOn)))
  | .error _ => none

/-- C4 counterexample: a valid monthly reconciliation whose entry omits
`status` keeps the installment `paid` (status is inherited from the
stored installment) yet clears `paidOn` to null, because `paidOn` is
computed from the raw request status.  The stored loan satisfied the
invariant, the persisted one violates it, refuting the claim. -/
theorem reconcile_paidOn_missing_status_cex :
    monthlyInstMarks (updateMonthlyInstallment 7 mLoanC4 [entC4]) =
      some [(IStatus.paid, none)] ∧
    (∀ i ∈ mLoanC4.installments, (i.paidOn ≠ none ↔ i.status = .paid)) := by
  decide

/-- C4 (amended): after a valid reconciliation on any plan in which
every submitted entry carries an explicit status (daily validation
already enforces this; weekly/monthly permit omitting it), starting
from a stored loan satisfying the invariant, every persisted
installment has `paidOn` non-null exactly when its status is `paid` —
in particular any transition away from `paid` clears `paidOn`. -/
theorem paidOn_iff_paid_explicit_status (nowd noww nowm : Int)
    (dl : DailyLoan) (de : List DailyInstUpdate) (dl' : DailyLoan)
    (hdInv : ∀ i ∈ dl.installments, (i.paidOn ≠ none ↔ i.status = .paid))
    (hd : updateDailyInstallment nowd dl de = .ok dl')
    (wl : WeeklyLoan) (we : List PlanInstUpdate) (wl' : WeeklyLoan)
    (hwS : ∀ e ∈ we, e.status ≠ "")
    (hw : updateWeeklyInstallment noww wl we = .ok wl')
    (ml : MonthlyLoan) (me : List PlanInstUpdate) (ml' : MonthlyLoan)
    (hmS : ∀ e ∈ me, e.status ≠ "")
    (hm : updateMonthlyInstallment nowm ml me = .ok ml') :
    (∀ i ∈ dl'.installments, (i.paidOn ≠ none ↔ i.status = .paid)) ∧
    (∀ i ∈ wl'.installments, (i.paidOn ≠ none ↔ i.status = .paid)) ∧
    (∀ i ∈ ml'.installments, (i.paidOn ≠ none ↔ i.status = .paid)) := by
  have hds := updateDaily_ok_shape nowd dl de dl' hd
  have hws := updateWeekly_ok_shape noww wl we wl' hw
  have hms := updateMonthly_ok_shape nowm ml me ml' hm
  subst hds hws hms
  refine ⟨?_, ?_, ?_⟩
  · intro i hi
    rw [List.mem_map] at hi
    obtain ⟨j, hj, rfl⟩ := hi
    unfold applyDailyUpdate
    cases hu : lookupDailyUpdate de j.period with
    | none => exact hdInv j hj
    | some u => by_cases hps : u.status = "paid" <;> simp [hps]
  · intro i hi
    rw [List.mem_map] at hi
    obtain ⟨e, he, rfl⟩ := hi
    have hs := hwS e he
    by_cases hps : e.status = "paid" <;>
      simp [buildPlanInstallment, hs, hps, parseStatus_eq_paid]
  · intro i hi
    rw [List.mem_map] at hi
    obtain ⟨e, he, rfl⟩ := hi
    have hs := hmS e he
    by_cases hps : e.status = "paid" <;>
      simp [buildPlanInstallment, hs, hps, parseStatus_eq_paid]

/-- C4 witness: the amended invariant holds on the three concrete
reconciliations of the C1-C3 fixtures. -/
theorem paidOn_iff_paid_explicit_status_witness :
    (∀ i ∈ dResW.installments, (i.paidOn ≠ none ↔ i.status = .paid)) ∧
    (∀ i ∈ wResW.installments, (i.paidOn ≠ none ↔ i.status = .paid)) ∧
    (∀ i ∈ mResW.installments, (i.paidOn ≠ none ↔ i.status = .paid)) :=
  paidOn_iff_paid_explicit_status 5 9 2 dLoanW dEntsW dResW (by decide) rfl
    wLoanW wEntsW wResW (by decide) rfl mLoanW mEntsW mResW (by decide) rfl

/-- C5: marking an already `completed` weekly or monthly loan as paid
fails with the invalid-state error and persists nothing: every field of
the stored loan is left unchanged. -/
theorem mark_paid_completed_invalid_state (w : WeeklyLoan) (m : MonthlyLoan)
    (hw : w.status = .completed) (hm : m.status = .completed) :
    markWeeklyLoanAsPaid w =
      .error (.invalidStateError "Loan is already marked as completed") ∧
    persistLoan w (markWeeklyLoanAsPaid w) = w ∧
    markMonthlyLoanAsPaid m =
      .error (.invalidStateError "Loan is already marked as completed") ∧
    persistLoan m (markMonthlyLoanAsPaid m) = m := by
  unfold persistLoan markWeeklyLoanAsPaid markMonthlyLoanAsPaid
  rw [if_pos hw, if_pos hm]
  exact ⟨rfl, rfl, rfl, rfl⟩

/-- Completed weekly loan fixture. -/
def wLoanC5 : WeeklyLoan :=
  { loanNumber := none, name := "E", phoneNumber := none, loanAmount := 5000,
    amountGiven := 4500, issuingDate := 0, interestAmount := 500,
    interestPercentage := 10, profitAmount := 1000, collectedAmount := 5000,
    remainingAmount := 0, status := .completed,
    installments := [⟨1, 7, 500, .paid, some 8⟩] }

/-- Completed monthly loan fixture. -/
def mLoanC5 : MonthlyLoan :=
  { loanNumber := 2, name := "F", phoneNumber := none, loanAmount := 12000,
    amountGiven := 11000, issuingDate := 0, interestAmount := 1000,
    interestPercentage := 10, profitAmount := 2000, collectedAmount := 13000,
    remainingAmount := 0, status := .completed,
    installments := [⟨1, 30, 1000, .paid, some 31⟩] }

/-- C5 witness: concrete completed weekly and monthly loans are
rejected unchanged. -/
theorem mark_paid_completed_invalid_state_witness :
    markWeeklyLoanAsPaid wLoanC5 =
      .error (.invalidStateError "Loan is already marked as completed") ∧
    persistLoan wLoanC5 (markWeeklyLoanAsPaid wLoanC5) = wLoanC5 ∧
    markMonthlyLoanAsPaid mLoanC5 =
      .error (.invalidStateError "Loan is already marked as completed") ∧
    persistLoan mLoanC5 (markMonthlyLoanAsPaid mLoanC5) = mLoanC5 :=
  mark_paid_completed_invalid_state wLoanC5 mLoanC5 rfl rfl

/-- C6: deleting a well-formed 24-character id that matches no stored
loan fails with the not-found error for each of the three plans, and
the collection persists unchanged. -/
theorem delete_missing_id_not_found (oid : String)
    (dc : List (String × DailyLoan)) (wc : List (String × WeeklyLoan))
    (mc : List (String × MonthlyLoan))
    (hlen : oid.length = 24)
    (hd : ∀ p ∈ dc, p.1 ≠ oid) (hw : ∀ p ∈ wc, p.1 ≠ oid)
    (hm : ∀ p ∈ mc, p.1 ≠ oid) :
    deleteDailyLoan dc oid = .error (.notFoundError "Daily loan not found") ∧
    persistColl dc (deleteDailyLoan dc oid) = dc ∧
    deleteWeeklyLoan wc oid = .error (.notFoundError "Weekly loan not found") ∧
    persistColl wc (deleteWeeklyLoan wc oid) = wc ∧
    deleteMonthlyLoan mc oid = .error (.notFoundError "Monthly loan not found") ∧
    persistColl mc (deleteMonthlyLoan mc oid) = mc := by
  have hfd : dc.find? (fun p => decide (p.1 = oid)) = none := by
    rw [List.find?_eq_none]; intro p hp; simp [hd p hp]
  have hfw : wc.find? (fun p => decide (p.1 = oid)) = none := by
    rw [List.find?_eq_none]; intro p hp; simp [hw p hp]
  have hfm : mc.find? (fun p => decide (p.1 = oid)) = none := by
    rw [List.find?_eq_none]; intro p hp; simp [hm p hp]
  unfold deleteDailyLoan deleteWeeklyLoan deleteMonthlyLoan
  simp [hlen, hfd, hfw, hfm, persistColl]

/-- A syntactically well-formed 24-character storage id. -/
def oid24 : String := "aaaaaaaaaaaaaaaaaaaaaaaa"

/-- C6 witness: deleting `oid24` from empty collections of all three
plans reports not-found and leaves them empty. -/
theorem delete_missing_id_not_found_witness :
    deleteDailyLoan [] oid24 = .error (.notFoundError "Daily loan not found") ∧
    persistColl [] (deleteDailyLoan [] oid24) = ([] : List (String × DailyLoan)) ∧
    deleteWeeklyLoan [] oid24 = .error (.notFoundError "Weekly loan not found") ∧
    persistColl [] (deleteWeeklyLoan [] oid24) = ([] : List (String × WeeklyLoan)) ∧
    deleteMonthlyLoan [] oid24 = .error (.notFoundError "Monthly loan not found") ∧
    persistColl [] (deleteMonthlyLoan [] oid24) = ([] : List (String × MonthlyLoan)) :=
  delete_missing_id_not_found oid24 [] [] [] (by decide)
    (by simp) (by simp) (by simp)

theorem createDaily_ok_shape (n : Int) (req : DailyCreateReq) (loan : DailyLoan)
    (h : createDailyLoan n req = .ok loan) :
    loan = { loanNumber := n,
             name := req.customerName,
             phoneNumber := req.phoneNumber,
             loanAmount := req.totalLoanAmount,
             amountGiven := req.amountGiven,
             issuingDate := req.issuingDate.getD 0,
             expectedProfit := req.expectedProfit,
             totalProfit := 0,
             profitPercentage := req.profitPercentage,
             numberOfDays := req.numberOfDays,
             amountPerDay := req.amountPerDay,
             collectedAmount := 0,
             remainingAmount := req.totalLoanAmount,
             status := .active,
             installments := genDailyInstallments (req.issuingDate.getD 0)
               req.numberOfDays req.amountPerDay } := by
  unfold createDailyLoan at h
  split at h
  · exact absurd h (by simp)
  · split at h
    · exact absurd h (by simp)
    · simp only [Except.ok.injEq] at h; exact h.symm

theorem genDailyInstallments_length (d n a : Int) :
    (genDailyInstallments d n a).length = n.toNat := by
  unfold genDailyInstallments
  rw [List.length_map, List.length_range]

theorem genDailyInstallments_get (d n a : Int) (j : Nat)
    (hj : j < (genDailyInstallments d n a).length) :
    (genDailyInstallments d n a).get ⟨j, hj⟩ =
      ⟨(j : Int) + 1, d + ((j : Int) + 1), a, .pending, none⟩ := by
  unfold genDailyInstallments at hj ⊢
  rw [List.get_eq_getElem, List.getElem_map, List.getElem_range]

/-- C8: a successful daily creation whose request is valid in the
spec's sense (`numberOfDays` strictly positive, issuing date supplied)
produces exactly `numberOfDays` installments, installment `j+1` being
due `j+1` days after the issuing date for amount `amountPerDay`, all
`pending` with null `paidOn` independently of the current date (the
embedding takes no notion of "today"); and the aggregates start at
`collectedAmount = 0`, `remainingAmount = totalLoanAmount`,
`totalProfit = 0`, `status = active`. -/
theorem daily_create_initial_state (n : Int) (req : DailyCreateReq)
    (loan : DailyLoan) (d : Int)
    (h : createDailyLoan n req = .ok loan)
    (hd : req.issuingDate = some d)
    (hpos : 0 < req.numberOfDays) :
    (loan.installments.length : Int) = req.numberOfDays ∧
    (∀ j (hj : j < loan.installments.length),
      (loan.installments.get ⟨j, hj⟩).period = (j : Int) + 1 ∧
      (loan.installments.get ⟨j, hj⟩).date = d + ((j : Int) + 1) ∧
      (loan.installments.get ⟨j, hj⟩).amount = req.amountPerDay ∧
      (loan.installments.get ⟨j, hj⟩).status = .pending ∧
      (loan.installments.get ⟨j, hj⟩).paidOn = none) ∧
    loan.collectedAmount = 0 ∧
    loan.remainingAmount = req.totalLoanAmount ∧
    loan.totalProfit = 0 ∧
    loan.status = .active := by
  have hs := createDaily_ok_shape n req loan h
  subst hs
  refine ⟨?_, ?_, rfl, rfl, rfl, rfl⟩
  · show ((genDailyInstallments (req.issuingDate.getD 0)
      req.numberOfDays req.amountPerDay).length : Int) = req.numberOfDays
    rw [genDailyInstallments_length]
    omega
  · intro j hj
    have hg := genDailyInstallments_get (req.issuingDate.getD 0)
      req.numberOfDays req.amountPerDay j hj
    refine ⟨?_, ?_, ?_, ?_, ?_⟩ <;> rw [hg] <;> simp [hd]

/-- Valid daily creation request fixture with three installments. -/
def reqD8 : DailyCreateReq :=
  { customerName := "G", phoneNumber := none, amountGiven := 900,
    expectedProfit := 100, profitPercentage := 10, totalLoanAmount := 1000,
    numberOfDays := 3, amountPerDay := 100, issuingDate := some 10 }

def loanD8 : DailyLoan := persistLoan dLoanW (createDailyLoan 1 reqD8)

/-- C8 witness: the initial-state description holds on a concrete
daily creation. -/
theorem daily_create_initial_state_witness :
    (loanD8.installments.length : Int) = reqD8.numberOfDays ∧
    (∀ j (hj : j < loanD8.installments.length),
      (loanD8.installments.get ⟨j, hj⟩).period = (j : Int) + 1 ∧
      (loanD8.installments.get ⟨j, hj⟩).date = 10 + ((j : Int) + 1) ∧
      (loanD8.installments.get ⟨j, hj⟩).amount = reqD8.amountPerDay ∧
      (loanD8.installments.get ⟨j, hj⟩).status = .pending ∧
      (loanD8.installments.get ⟨j, hj⟩).paidOn = none) ∧
    loanD8.collectedAmount = 0 ∧
    loanD8.remainingAmount = reqD8.totalLoanAmount ∧
    loanD8.totalProfit = 0 ∧
    loanD8.status = .active :=
  daily_create_initial_state 1 reqD8 loanD8 10 rfl rfl (by decide)

/-- Is the request accepted (no error thrown)? -/
def isOkE {ε α : Type} (r : Except ε α) : Bool :=
  match r with
  | .ok _ => true
  | .error _ => false

/-- C9 counterexample fixture: a creation request whose
`expectedProfit` is negative and whose other fields are valid. -/
def reqC9 : DailyCreateReq :=
  { customerName := "H", phoneNumber := none, amountGiven := 900,
    expectedProfit := -1, profitPercentage := 10, totalLoanAmount := 1000,
    numberOfDays := 10, amountPerDay := 100, issuingDate := some 0 }

/-- C9 counterexample: `createDailyLoan` accepts a request with
`expectedProfit = -1` (the truthiness check only rejects 0, and neither
the controller nor the daily schema checks positivity), so not every
non-positive value is rejected with a validation error. -/
theorem daily_create_accepts_negative_cex :
    isOkE (createDailyLoan 1 reqC9) = true ∧ reqC9.expectedProfit < 0 := by
  decide

/-- C9 (amended): `createDailyLoan` rejects with a validation error
every request in which `expectedProfit`, `amountPerDay` or
`numberOfDays` equals 0 (javascript falsy), before any loan is
persisted; strictly negative values are not rejected. -/
theorem daily_create_rejects_zero_fields (n : Int) (req : DailyCreateReq)
    (coll : List DailyLoan)
    (h : req.expectedProfit = 0 ∨ req.amountPerDay = 0 ∨ req.numberOfDays = 0) :
    createDailyLoan n req = .error (.validationError "All fields are required") ∧
    createDailyLoanIn coll req = .error (.validationError "All fields are required") ∧
    persistLoan coll (createDailyLoanIn coll req) = coll := by
  have key : ∀ m : Int,
      createDailyLoan m req = .error (.validationError "All fields are required") := by
    intro m
    unfold createDailyLoan
    rw [if_pos (by tauto)]
  refine ⟨key n, ?_, ?_⟩
  · unfold createDailyLoanIn
    rw [key _]
  · unfold createDailyLoanIn persistLoan
    rw [key _]

/-- Request with `amountPerDay = 0` and otherwise valid fields. -/
def reqC9z : DailyCreateReq :=
  { customerName := "H", phoneNumber := none, amountGiven := 900,
    expectedProfit := 100, profitPercentage := 10, totalLoanAmount := 1000,
    numberOfDays := 10, amountPerDay := 0, issuingDate := some 0 }

/-- C9 witness: a zero `amountPerDay` is rejected and nothing is
persisted. -/
theorem daily_create_rejects_zero_fields_witness :
    createDailyLoan 1 reqC9z = .error (.validationError "All fields are required") ∧
    createDailyLoanIn [] reqC9z = .error (.validationError "All fields are required") ∧
    persistLoan [] (createDailyLoanIn [] reqC9z) = ([] : List DailyLoan) :=
  daily_create_rejects_zero_fields 1 reqC9z [] (Or.inr (Or.inl rfl))

/-- Fresh monthly loan for the C10 reachability scenario: never marked
as paid (`collectedAmount = 0 < loanAmount = 100`). -/
def proxyLoan : MonthlyLoan :=
  { loanNumber := 3, name := "I", phoneNumber := none, loanAmount := 100,
    amountGiven := 90, issuingDate := 0, interestAmount := 10,
    interestPercentage := 10, profitAmount := 10, collectedAmount := 0,
    remainingAmount := 100, status := .active, installments := [] }

/-- One paid installment whose amount alone reaches the loan amount. -/
def proxyEntries : List PlanInstUpdate := [⟨1, some 1, 100, "paid", some 2⟩]

/-- Does one reconciliation on the fresh loan, with no mark-as-paid
ever invoked, make the stored `collectedAmount` reach `loanAmount`? -/
def proxyReached : Bool :=
  match updateMonthlyInstallment 0 proxyLoan proxyEntries with
  | .ok l => decide (l.collectedAmount ≥ l.loanAmount)
  | .error _ => false

/-- C10: `updateMonthlyInstallment` treats the loan as marked fully
paid exactly when the previously stored `collectedAmount` is at least
`loanAmount`: then the new `collectedAmount` is the paid-installment
sum plus `loanAmount` and the status is `completed` exactly when every
resulting installment is paid; otherwise the new `collectedAmount` is
the paid-installment sum alone and the status is forced `active`.  The
proxy is reachable through installment-derived collections alone
(`proxyReached`), without `markMonthlyLoanAsPaid` ever being invoked. -/
theorem monthly_marked_paid_proxy (now : Int) (loan : MonthlyLoan)
    (entries : List PlanInstUpdate) (l' : MonthlyLoan)
    (h : updateMonthlyInstallment now loan entries = .ok l') :
    (loan.collectedAmount ≥ loan.loanAmount →
      l'.collectedAmount = sumPaid l'.installments + loan.loanAmount ∧
      (l'.status = .completed ↔ ∀ i ∈ l'.installments, i.status = .paid)) ∧
    (¬ loan.collectedAmount ≥ loan.loanAmount →
      l'.collectedAmount = sumPaid l'.installments ∧ l'.status = .active) ∧
    proxyReached = true := by
  have hs := updateMonthly_ok_shape now loan entries l' h
  subst hs
  refine ⟨?_, ?_, by decide⟩
  · intro hm
    refine ⟨by simp [hm], ?_⟩
    by_cases hp : ∀ i ∈ entries.map (buildPlanInstallment now loan.installments),
        i.status = .paid
    · simp [hm, hp, List.all_eq_true]
    · have hpf : ¬ ((entries.map (buildPlanInstallment now loan.installments)).all
          (fun i => i.status = .paid) = true) := by
        simpa [List.all_eq_true] using hp
      push_neg at hp
      obtain ⟨i, hi, hip⟩ := hp
      rw [List.mem_map] at hi
      obtain ⟨x, hx, rfl⟩ := hi
      simp [hm, hpf]
      exact ⟨x, hx, hip⟩
  · intro hm
    exact ⟨by simp [hm], by simp [hm]⟩

/-- The loan after the first reconciliation, whose stored
`collectedAmount` now equals `loanAmount` although mark-as-paid was
never called. -/
def proxyLoan2 : MonthlyLoan :=
  persistLoan proxyLoan (updateMonthlyInstallment 0 proxyLoan proxyEntries)

/-- The loan after a second reconciliation, now on the proxy branch. -/
def proxyRes2 : MonthlyLoan :=
  persistLoan proxyLoan2 (updateMonthlyInstallment 1 proxyLoan2 proxyEntries)

/-- C10 witness: the proxy branch fires on the concrete two-step
scenario. -/
theorem monthly_marked_paid_proxy_witness :
    (proxyLoan2.collectedAmount ≥ proxyLoan2.loanAmount →
      proxyRes2.collectedAmount = sumPaid proxyRes2.installments + proxyLoan2.loanAmount ∧
      (proxyRes2.status = .completed ↔ ∀ i ∈ proxyRes2.installments, i.status = .paid)) ∧
    (¬ proxyLoan2.collectedAmount ≥ proxyLoan2.loanAmount →
      proxyRes2.collectedAmount = sumPaid proxyRes2.installments ∧
      proxyRes2.status = .active) ∧
    proxyReached = true :=
  monthly_marked_paid_proxy 1 proxyLoan2 proxyEntries proxyRes2 rfl

/-! ## Loan-number sequence lemmas (C7) -/

theorem maxLoanNumber_cons (n : Int) (l : List Int) :
    maxLoanNumber (n :: l) =
      match maxLoanNumber l with
      | none => some n
      | some m => some (max n m) := rfl

theorem maxLoanNumber_append (l : List Int) (a : Int) :
    maxLoanNumber (l ++ [a]) =
      some (match maxLoanNumber l with | none => a | some m => max m a) := by
  induction l with
  | nil => rfl
  | cons n rest ih =>
    rw [List.cons_append, maxLoanNumber_cons, ih, maxLoanNumber_cons]
    cases hr : maxLoanNumber rest with
    | none => rfl
    | some m => simp [max_assoc]

theorem maxLoanNumber_oneTo (k : Nat) :
    maxLoanNumber (oneTo k) = if k = 0 then none else some (k : Int) := by
  induction k with
  | zero => rfl
  | succ k ih =>
    have hsplit : oneTo (k + 1) = oneTo k ++ [(k : Int) + 1] := by
      simp [oneTo, List.range_succ]
    rw [hsplit, maxLoanNumber_append, ih]
    by_cases hk : k = 0
    · subst hk; rfl
    · rw [if_neg hk, if_neg (Nat.succ_ne_zero k)]
      have hmax : max (k : Int) ((k : Int) + 1) = (k : Int) + 1 :=
        max_eq_right (by omega)
      simp only [hmax, Nat.cast_succ]

theorem getNextLoanNumber_oneTo (k : Nat) :
    getNextLoanNumber (oneTo k) = (k : Int) + 1 := by
  unfold getNextLoanNumber
  rw [maxLoanNumber_oneTo]
  by_cases hk : k = 0
  · subst hk; rfl
  · rw [if_neg hk]

theorem createDaily_ok_loanNumber (n : Int) (req : DailyCreateReq) (l : DailyLoan)
    (h : createDailyLoan n req = .ok l) : l.loanNumber = n := by
  have hs := createDaily_ok_shape n req l h
  subst hs
  rfl

theorem createMonthly_ok_loanNumber (n : Int) (req : PlanCreateReq) (l : MonthlyLoan)
    (h : createMonthlyLoan n req = .ok l) : l.loanNumber = n := by
  unfold createMonthlyLoan at h
  cases hv : validatePlanCreate req with
  | error e => rw [hv] at h; exact absurd h (by simp)
  | ok u =>
    rw [hv] at h
    simp only [Except.ok.injEq] at h
    rw [← h]

theorem runDailyCreates_numbers (reqs : List DailyCreateReq) :
    ∀ (coll coll' : List DailyLoan) (k : Nat),
      coll.map (fun l => l.loanNumber) = oneTo k →
      runDailyCreates coll reqs = .ok coll' →
      coll'.map (fun l => l.loanNumber) = oneTo (k + reqs.length) := by
  induction reqs with
  | nil =>
    intro coll coll' k hk h
    unfold runDailyCreates at h
    simp only [Except.ok.injEq] at h
    subst h
    simpa using hk
  | cons r rs ih =>
    intro coll coll' k hk h
    unfold runDailyCreates at h
    cases hc : createDailyLoanIn coll r with
    | error e => rw [hc] at h; exact absurd h (by simp)
    | ok c =>
      rw [hc] at h
      unfold createDailyLoanIn at hc
      cases hcl : createDailyLoan
          (getNextLoanNumber (coll.map (fun l => l.loanNumber))) r with
      | error e => rw [hcl] at hc; exact absurd hc (by simp)
      | ok l =>
        rw [hcl] at hc
        simp only [Except.ok.injEq] at hc
        subst hc
        have hln : l.loanNumber =
            getNextLoanNumber (coll.map (fun l => l.loanNumber)) :=
          createDaily_ok_loanNumber _ _ _ hcl
        have hmap : (coll ++ [l]).map (fun l => l.loanNumber) = oneTo (k + 1) := by
          rw [List.map_append, hk]
          simp only [List.map_cons, List.map_nil]
          rw [hln, hk, getNextLoanNumber_oneTo]
          simp [oneTo, List.range_succ]
        have hres := ih (coll ++ [l]) coll' (k + 1) hmap h
        simpa [Nat.add_comm, Nat.add_assoc, Nat.add_left_comm] using hres

theorem runMonthlyCreates_numbers (reqs : List PlanCreateReq) :
    ∀ (coll coll' : List MonthlyLoan) (k : Nat),
      coll.map (fun l => l.loanNumber) = oneTo k →
      runMonthlyCreates coll reqs = .ok coll' →
      coll'.map (fun l => l.loanNumber) = oneTo (k + reqs.length) := by
  induction reqs with
  | nil =>
    intro coll coll' k hk h
    unfold runMonthlyCreates at h
    simp only [Except.ok.injEq] at h
    subst h
    simpa using hk
  | cons r rs ih =>
    intro coll coll' k hk h
    unfold runMonthlyCreates at h
    cases hc : createMonthlyLoanIn coll r with
    | error e => rw [hc] at h; exact absurd h (by simp)
    | ok c =>
      rw [hc] at h
      unfold createMonthlyLoanIn at hc
      cases hcl : createMonthlyLoan
          (getNextLoanNumber (coll.map (fun l => l.loanNumber))) r with
      | error e => rw [hcl] at hc; exact absurd hc (by simp)
      | ok l =>
        rw [hcl] at hc
        simp only [Except.ok.injEq] at hc
        subst hc
        have hln : l.loanNumber =
            getNextLoanNumber (coll.map (fun l => l.loanNumber)) :=
          createMonthly_ok_loanNumber _ _ _ hcl
        have hmap : (coll ++ [l]).map (fun l => l.loanNumber) = oneTo (k + 1) := by
          rw [List.map_append, hk]
          simp only [List.map_cons, List.map_nil]
          rw [hln, hk, getNextLoanNumber_oneTo]
          simp [oneTo, List.range_succ]
        have hres := ih (coll ++ [l]) coll' (k + 1) hmap h
        simpa [Nat.add_comm, Nat.add_assoc, Nat.add_left_comm] using hres

/-- `loanNumber` of a persisted weekly creation, `none` on rejection. -/
def weeklyLoanNumberAssigned (r : Except ApiErr WeeklyLoan) : Option (Option Int) :=
  match r with
  | .ok l => some l.loanNumber
  | .error _ => none

/-- Valid weekly/monthly creation request fixture. -/
def reqM7 : PlanCreateReq :=
  { customerName := "J", phoneNumber := none, amountGiven := 900,
    totalLoanAmount := 1000, interestAmount := 100, interestPercentage := 10,
    issuingDate := some 0 }

/-- C7 counterexample: one sequential weekly creation succeeds but
assigns no `loanNumber` at all (the weekly controller never invokes the
generator), so for the weekly plan type the numbers assigned by N = 1
creations are not the set containing exactly 1. -/
theorem weekly_creation_assigns_no_number_cex :
    weeklyLoanNumberAssigned (createWeeklyLoan reqM7) = some none := by
  decide

/-- C7 (amended): `getNextLoanNumber` returns 1 on an empty collection
and 1 plus the maximum existing loan number otherwise, and for the two
plan types whose creation invokes it (daily and monthly — weekly loans
are never numbered), N sequential creations starting from an empty
collection assign the loan numbers 1..N in order, with no gaps or
repeats. -/
theorem loan_numbers_sequential (nums : List Int) (m : Int)
    (dreqs : List DailyCreateReq) (dcoll : List DailyLoan)
    (mreqs : List PlanCreateReq) (mcoll : List MonthlyLoan)
    (hmax : maxLoanNumber nums = some m)
    (hd : runDailyCreates [] dreqs = .ok dcoll)
    (hm : runMonthlyCreates [] mreqs = .ok mcoll) :
    getNextLoanNumber [] = 1 ∧
    getNextLoanNumber nums = m + 1 ∧
    dcoll.map (fun l => l.loanNumber) = oneTo dreqs.length ∧
    mcoll.map (fun l => l.loanNumber) = oneTo mreqs.length := by
  refine ⟨rfl, ?_, ?_, ?_⟩
  · unfold getNextLoanNumber
    rw [hmax]
  · simpa using runDailyCreates_numbers dreqs [] dcoll 0 rfl hd
  · simpa using runMonthlyCreates_numbers mreqs [] mcoll 0 rfl hm

/-- Two sequential daily creations of the C8 fixture request. -/
def dSeqColl : List DailyLoan :=
  persistLoan [] (runDailyCreates [] [reqD8, reqD8])

/-- One sequential monthly creation of the `reqM7` fixture request. -/
def mSeqColl : List MonthlyLoan :=
  persistLoan [] (runMonthlyCreates [] [reqM7])

/-- C7 witness: on concrete sequential creations the assigned numbers
are 1..N, and the generator contract holds on the list [3, 1, 2]. -/
theorem loan_numbers_sequential_witness :
    getNextLoanNumber [] = 1 ∧
    getNextLoanNumber [3, 1, 2] = 3 + 1 ∧
    dSeqColl.map (fun l => l.loanNumber) = oneTo 2 ∧
    mSeqColl.map (fun l => l.loanNumber) = oneTo 1 :=
  loan_numbers_sequential [3, 1, 2] 3 [reqD8, reqD8] dSeqColl [reqM7] mSeqColl
    (by decide) rfl rfl
